import Mathlib

/-!
Verification of the security-paper search core (registry lookups, venue
matcher, DBLP query builder, search orchestrator post-filtering) against
its specification.  The TypeScript/JavaScript source is shallowly embedded:
strings are `String`, JavaScript numbers that may be `NaN` are `Option Int`
(`none` = `NaN`), truthiness tests are made explicit, and the network fetch
is a function parameter.
-/

namespace SecPaper

/-! ## JavaScript string and number primitives -/

/-- Lowercasing as used by the source (ASCII case folding). -/
def strLower (s : String) : String := ⟨s.data.map Char.toLower⟩

/-- Uppercasing (ASCII case folding). -/
def strUpper (s : String) : String := ⟨s.data.map Char.toUpper⟩

/-- Does the first list start with the second one? -/
def leadsWith : List Char → List Char → Bool
  | [], _ => true
  | _ :: _, [] => false
  | a :: as, b :: bs => a == b && leadsWith as bs

/-- JavaScript `hay.includes(needle)`: substring containment. -/
def hasSub (hay needle : List Char) : Bool :=
  match hay with
  | [] => needle.isEmpty
  | _ :: t => leadsWith needle hay || hasSub t needle

/-- JavaScript `hay.includes(needle)` on strings. -/
def strIncludes (hay needle : String) : Bool := hasSub hay.toList needle.toList

/-- JavaScript `a || b` where `a` is a possibly-undefined string and the
result must be a string (empty strings are falsy). -/
def jsOrStr (a : Option String) (b : String) : String :=
  match a with
  | some s => if s = "" then b else s
  | none => b

/-- JavaScript `a || b` on possibly-undefined strings. -/
def jsOrOpt (a b : Option String) : Option String :=
  match a with
  | some s => if s = "" then b else some s
  | none => b

/-- Truthiness of a possibly-undefined JavaScript number (0 and undefined
are falsy). -/
def truthyInt : Option Int → Bool
  | some n => n != 0
  | none => false

/-- Value of a digit string (most significant first). -/
def digitsVal (cs : List Char) : Nat :=
  cs.foldl (fun acc c => acc * 10 + (c.toNat - 48)) 0

/-- Longest leading run of decimal digits, `none` when there is none. -/
def parseDigits (l : List Char) : Option Nat :=
  let ds := l.takeWhile (fun c => c.isDigit)
  if ds.isEmpty then none else some (digitsVal ds)

/-- JavaScript `parseInt(s, 10)`: skip leading whitespace, optional sign,
longest digit prefix; `NaN` (here `none`) when no digits are found. -/
def jsParseInt (s : String) : Option Int :=
  match s.toList.dropWhile (fun c => c.isWhitespace) with
  | '-' :: rest => (parseDigits rest).map (fun n => -(n : Int))
  | '+' :: rest => (parseDigits rest).map (fun n => (n : Int))
  | l => (parseDigits l).map (fun n => (n : Int))

/-- JavaScript `year.toString()` for a possibly-`NaN` number. -/
def yearToString : Option Int → String
  | some y => toString y
  | none => "NaN"

/-! ## Data model (types.ts) -/

/-- Conference prestige tier. -/
inductive Tier where
  | top
  | second
deriving DecidableEq, Repr

/-- Tier selector accepted by search requests. -/
inductive TierSel where
  | top
  | second
  | all
deriving DecidableEq, Repr

/-- One registry entry (`ConferenceInfo` in types.ts).  `urls` is the
year-string-to-URL record. -/
structure ConferenceInfo where
  name : String
  shortName : String
  tier : Tier
  urls : List (String × String)
  dblpKey : String
deriving DecidableEq, Repr

/-- The conference registry (`conferences.json`): two ordered key-to-entry
records, one per tier. -/
structure Config where
  top_tier : List (String × ConferenceInfo)
  second_tier : List (String × ConferenceInfo)
deriving DecidableEq, Repr

/-- `SearchOptions` in types.ts; absent fields are `none`. -/
structure SearchOptions where
  keyword : Option String := none
  author : Option String := none
  yearFrom : Option Int := none
  yearTo : Option Int := none
  conferences : Option (List String) := none
  tier : Option TierSel := none
  limit : Option Int := none
deriving DecidableEq, Repr

/-- The `authors.author` field of a DBLP hit: a single object or a list. -/
inductive AuthorData where
  | single (text : String)
  | multiple (texts : List String)
deriving DecidableEq, Repr

/-- One raw DBLP hit (`DblpHit.info` in types.ts). -/
structure DblpHit where
  title : String
  authors : Option AuthorData := none
  year : String
  venue : String
  url : Option String := none
  doi : Option String := none
  ee : Option String := none
deriving DecidableEq, Repr

/-- Normalized output record (`Paper` in types.ts).  `year` is `none` when
the upstream year text did not parse (JavaScript `NaN`). -/
structure Paper where
  title : String
  authors : List String
  year : Option Int
  conference : String
  conferenceFull : String
  tier : Tier
  url : Option String
  doi : Option String
  conferenceUrl : Option String
deriving DecidableEq, Repr

/-! ## Conference registry operations (paperSearch.js) -/

/-- Indexing a JavaScript object built from an ordered entry list. -/
def lookupKey (l : List (String × ConferenceInfo)) (k : String) : Option ConferenceInfo :=
  match l.find? (fun p => p.1 == k) with
  | some p => some p.2
  | none => none

/-- String-keyed record lookup (for the per-year URL record). -/
def lookupStr (l : List (String × String)) (k : String) : Option String :=
  match l.find? (fun p => p.1 == k) with
  | some p => some p.2
  | none => none

/-- `getAllConferences()`: spread of the top-tier record then the
second-tier record (keys are globally unique, so order of entries is
top tier first). -/
def getAllConferences (c : Config) : List (String × ConferenceInfo) :=
  c.top_tier ++ c.second_tier

/-- `getConferencesByTier(tier)`. -/
def getConferencesByTier (c : Config) : TierSel → List (String × ConferenceInfo)
  | .top => c.top_tier
  | .second => c.second_tier
  | .all => getAllConferences c

/-- `getConferenceInfo(key)`: case-insensitive lookup in the union. -/
def getConferenceInfo (c : Config) (key : String) : Option ConferenceInfo :=
  lookupKey (getAllConferences c) (strLower key)

/-- `getConferenceWebsiteUrl(key, year)` with the year already rendered to
a string (JavaScript `year.toString()`). -/
def getConferenceWebsiteUrlN (c : Config) (key : String) (year : Option Int) : Option String :=
  match getConferenceInfo c key with
  | none => none
  | some conf => lookupStr conf.urls (yearToString year)

/-- `getConferenceWebsiteUrl(key, year)` for an ordinary integer year. -/
def getConferenceWebsiteUrl (c : Config) (key : String) (year : Int) : Option String :=
  getConferenceWebsiteUrlN c key (some year)

/-! ## Venue matcher (paperSearch.js) -/

/-- The `DBLP_VENUE_MAPPINGS` constant; absent keys give `[]` as in the
source's `DBLP_VENUE_MAPPINGS[key] || []`. -/
def DBLP_VENUE_MAPPINGS (key : String) : List String :=
  if key = "sp" then ["sp", "ieee symposium on security and privacy", "s&p", "oakland"]
  else if key = "usenix" then ["uss", "usenix security", "usenix security symposium"]
  else if key = "ccs" then ["ccs", "acm ccs", "computer and communications security"]
  else if key = "ndss" then ["ndss", "network and distributed system security"]
  else if key = "acsac" then ["acsac", "annual computer security applications"]
  else if key = "raid" then ["raid", "research in attacks", "intrusions and defenses"]
  else if key = "esorics" then ["esorics", "european symposium on research in computer security"]
  else []

/-- The per-conference body of `matchConference`'s loop: DBLP key check,
then the known venue mappings, then the registry key / short name check;
`none` when none of the three rules fires for this conference. -/
def confRuleHit (venueLower : String) (p : String × ConferenceInfo) : Option (String × ConferenceInfo) :=
  if strIncludes venueLower p.2.dblpKey then some p
  else if (DBLP_VENUE_MAPPINGS p.1).any (fun m => strIncludes venueLower m) then some p
  else if strIncludes venueLower p.1 || strIncludes venueLower (strLower p.2.shortName) then some p
  else none

/-- `matchConference(venue)`: first conference in registry order for which
any rule fires. -/
def matchConference (c : Config) (venue : String) : Option (String × ConferenceInfo) :=
  let venueLower := strLower venue
  (getAllConferences c).findSome? (confRuleHit venueLower)

/-! ## Query builder (buildDblpQuery) -/

/-- The keyword part of the query (`if (options.keyword) parts.push(...)`:
an empty keyword is falsy and pushes nothing). -/
def kwPart (options : SearchOptions) : List String :=
  match options.keyword with
  | some k => if k = "" then [] else [k]
  | none => []

/-- The author part of the query. -/
def authorPart (options : SearchOptions) : List String :=
  match options.author with
  | some a => if a = "" then [] else ["author:" ++ a]
  | none => []

/-- `targetConferences`: the explicit list when non-empty, else the keys of
`getConferencesByTier(options.tier || 'all')`. -/
def targetConferences (c : Config) (options : SearchOptions) : List String :=
  match options.conferences with
  | some cs => if cs ≠ [] then cs else (getConferencesByTier c (options.tier.getD .all)).map (fun p => p.1)
  | none => (getConferencesByTier c (options.tier.getD .all)).map (fun p => p.1)

/-- `venueQueries`: each target key mapped through `getConferenceInfo` to
its `dblpKey`, with `.filter(Boolean)` dropping unresolved keys and empty
identifiers. -/
def venueQueries (c : Config) (options : SearchOptions) : List String :=
  (targetConferences c options).filterMap (fun cKey =>
    match getConferenceInfo c cKey with
    | some conf => if conf.dblpKey = "" then none else some conf.dblpKey
    | none => none)

/-- The venue part of the query: a single `|`-joined disjunction of
`venue:<id>:` terms, omitted when no identifiers survive. -/
def venuePart (c : Config) (options : SearchOptions) : List String :=
  match venueQueries c options with
  | [] => []
  | vs => [String.intercalate "|" (vs.map (fun v => "venue:" ++ v ++ ":"))]

/-- `buildDblpQuery(options)`. -/
def buildDblpQuery (c : Config) (options : SearchOptions) : String :=
  String.intercalate " " (kwPart options ++ authorPart options ++ venuePart c options)

/-! ## Search orchestrator (searchPapers) -/

/-- The `h` (max hits) request parameter: `options.limit || 50`. -/
def dblpRequestLimit (options : SearchOptions) : Int :=
  match options.limit with
  | some l => if l = 0 then 50 else l
  | none => 50

/-- The loop's year filter: skip when a truthy bound is supplied and the
parsed year compares outside it (`NaN` comparisons are false, so an
unparsable year is never skipped). -/
def yearSkip (options : SearchOptions) (hit : DblpHit) : Bool :=
  let year := jsParseInt hit.year
  (truthyInt options.yearFrom &&
    match year, options.yearFrom with
    | some y, some yf => y < yf
    | _, _ => false) ||
  (truthyInt options.yearTo &&
    match year, options.yearTo with
    | some y, some yt => yt < y
    | _, _ => false)

/-- The loop's explicit conference allow-list filter: skip only when an
explicit non-empty list was given, the hit matched, and the matched key is
not in the list. -/
def allowSkip (options : SearchOptions) (matched : Option (String × ConferenceInfo)) : Bool :=
  match options.conferences, matched with
  | some cs, some m => !cs.isEmpty && !cs.contains m.1
  | _, _ => false

/-- `authors` extraction from a hit. -/
def extractAuthors (hit : DblpHit) : List String :=
  match hit.authors with
  | some (.single t) => [t]
  | some (.multiple ts) => ts
  | none => []

/-- The Paper pushed for one surviving hit. -/
def mkPaper (c : Config) (hit : DblpHit) (matched : Option (String × ConferenceInfo))
    (year : Option Int) : Paper :=
  { title := hit.title
    authors := extractAuthors hit
    year := year
    conference := jsOrStr (matched.map (fun m => m.2.shortName)) hit.venue
    conferenceFull := jsOrStr (matched.map (fun m => m.2.name)) hit.venue
    tier := (matched.map (fun m => m.2.tier)).getD .second
    url := jsOrOpt hit.ee hit.url
    doi := hit.doi
    conferenceUrl := matched.bind (fun m => getConferenceWebsiteUrlN c m.1 year) }

/-- The decoded-hit processing loop of `searchPapers`: year filter, venue
match, allow-list filter, then Paper construction. -/
def processHits (c : Config) (options : SearchOptions) (hits : List DblpHit) : List Paper :=
  hits.filterMap (fun hit =>
    if yearSkip options hit then none
    else
      let matched := matchConference c hit.venue
      if allowSkip options matched then none
      else some (mkPaper c hit matched (jsParseInt hit.year)))

/-- `searchPapers(options)` with the network modelled as a function from
the request parameters (query string, max hits) to the decoded hit list. -/
def searchPapersModel (c : Config) (fetch : String × Int → List DblpHit)
    (options : SearchOptions) : List Paper :=
  processHits c options (fetch (buildDblpQuery c options, dblpRequestLimit options))

/-- The options `searchByConference` delegates with. -/
def byConferenceOptions (key : String) (year : Int) : SearchOptions :=
  { conferences := some [key], yearFrom := some year, yearTo := some year, limit := some 200 }

/-- `searchByConference(conferenceKey, year)`: unknown-conference error
before any fetch, else delegation to `searchPapers`. -/
def searchByConference (c : Config) (fetch : String × Int → List DblpHit)
    (key : String) (year : Int) : Except String (List Paper) :=
  match getConferenceInfo c key with
  | none => .error ("Unknown conference: " ++ key)
  | some _ => .ok (searchPapersModel c fetch (byConferenceOptions key year))

/-- `getAvailableYears()`: the loop `for (y = 2020; y <= currentYear + 1; y++)`
with the clock made a parameter. -/
def getAvailableYears (currentYear : Int) : List Int :=
  (List.range (currentYear + 2 - 2020).toNat).map (fun i : Nat => 2020 + (i : Int))

/-! ## The registry instance -/

/-- Modelled from the spec: the S&P registry entry of `conferences.json`,
which is not among the provided sources. -/
def spInfo : ConferenceInfo :=
  { name := "IEEE Symposium on Security and Privacy", shortName := "S&P", tier := .top
    urls := [("2024", "https://sp2024.ieee-security.org/")], dblpKey := "sp" }

/-- Modelled from the spec: the USENIX Security registry entry of
`conferences.json`. -/
def usenixInfo : ConferenceInfo :=
  { name := "USENIX Security Symposium", shortName := "USENIX Security", tier := .top
    urls := [("2024", "https://www.usenix.org/conference/usenixsecurity24")], dblpKey := "uss" }

/-- Modelled from the spec: the CCS registry entry of `conferences.json`. -/
def ccsInfo : ConferenceInfo :=
  { name := "ACM Conference on Computer and Communications Security", shortName := "CCS"
    tier := .top, urls := [("2024", "https://www.sigsac.org/ccs/CCS2024/")], dblpKey := "ccs" }

/-- Modelled from the spec: the NDSS registry entry of `conferences.json`. -/
def ndssInfo : ConferenceInfo :=
  { name := "Network and Distributed System Security Symposium", shortName := "NDSS"
    tier := .top, urls := [("2024", "https://www.ndss-symposium.org/ndss2024/")]
    dblpKey := "ndss" }

/-- Modelled from the spec: the ACSAC registry entry of `conferences.json`. -/
def acsacInfo : ConferenceInfo :=
  { name := "Annual Computer Security Applications Conference", shortName := "ACSAC"
    tier := .second, urls := [("2024", "https://www.acsac.org/")], dblpKey := "acsac" }

/-- Modelled from the spec: the RAID registry entry of `conferences.json`. -/
def raidInfo : ConferenceInfo :=
  { name := "Research in Attacks, Intrusions and Defenses", shortName := "RAID"
    tier := .second, urls := [("2024", "https://raid2024.github.io/")], dblpKey := "raid" }

/-- Modelled from the spec: the ESORICS registry entry of `conferences.json`. -/
def esoricsInfo : ConferenceInfo :=
  { name := "European Symposium on Research in Computer Security", shortName := "ESORICS"
    tier := .second, urls := [("2024", "https://esorics2024.github.io/")], dblpKey := "esorics" }

/-- Modelled from the spec: the registry data file `conferences.json` is
not among the provided sources (only its consumers are), so its contents
are reconstructed from the spec's conference lists — top tier S&P, USENIX
Security, CCS, NDSS and second tier ACSAC, RAID, ESORICS, with the keys
`sp`, `usenix`, `ccs`, `ndss`, `acsac`, `raid`, `esorics` used throughout
the sources and the standard DBLP stream identifiers as the upstream venue
identifiers. -/
def mcfg : Config :=
  { top_tier := [("sp", spInfo), ("usenix", usenixInfo), ("ccs", ccsInfo), ("ndss", ndssInfo)]
    second_tier := [("acsac", acsacInfo), ("raid", raidInfo), ("esorics", esoricsInfo)] }

/-! ## Helper lemmas -/

/-- ASCII case folding: lowering after uppering is plain lowering. -/
theorem charLowerUpper (ch : Char) : Char.toLower (Char.toUpper ch) = Char.toLower ch := by
  unfold Char.toUpper
  by_cases h : Char.toNat ch ≥ 97 ∧ Char.toNat ch ≤ 122
  · rw [if_pos h]
    have hval : (Char.toNat ch - 32).isValidChar := Or.inl (by omega)
    have htn : (Char.ofNat (Char.toNat ch - 32)).toNat = Char.toNat ch - 32 := by
      rw [Char.ofNat, dif_pos hval]
      rfl
    unfold Char.toLower
    rw [if_pos (by omega :
      (Char.ofNat (Char.toNat ch - 32)).toNat ≥ 65 ∧ (Char.ofNat (Char.toNat ch - 32)).toNat ≤ 90)]
    rw [if_neg (by omega : ¬(Char.toNat ch ≥ 65 ∧ Char.toNat ch ≤ 90))]
    rw [htn]
    have h32 : Char.toNat ch - 32 + 32 = Char.toNat ch := by omega
    rw [h32, Char.ofNat_toNat]
  · rw [if_neg h]

/-- Lowercasing an uppercased string gives the plain lowercased string. -/
theorem strLowerUpper (s : String) : strLower (strUpper s) = strLower s := by
  unfold strLower strUpper
  simp only [List.map_map]
  congr 1
  apply List.map_congr_left
  intro ch _
  exact charLowerUpper ch

/-- The per-conference rule check only ever returns its own conference. -/
theorem confRuleHit_eq_some {vl : String} {p m : String × ConferenceInfo}
    (h : confRuleHit vl p = some m) : m = p := by
  unfold confRuleHit at h
  split at h
  · exact (Option.some.inj h).symm
  · split at h
    · exact (Option.some.inj h).symm
    · split at h
      · exact (Option.some.inj h).symm
      · exact absurd h (by simp)

/-- A matched conference is an entry of the registry union. -/
theorem matchConference_mem {c : Config} {v : String} {m : String × ConferenceInfo}
    (h : matchConference c v = some m) : m ∈ getAllConferences c := by
  unfold matchConference at h
  obtain ⟨a, ha, hfa⟩ := List.exists_of_findSome?_eq_some h
  rwa [confRuleHit_eq_some hfa]

/-- A resolvable key resolves to an entry of the registry union. -/
theorem getConferenceInfo_mem {c : Config} {k : String} {conf : ConferenceInfo}
    (h : getConferenceInfo c k = some conf) :
    ∃ k2, (k2, conf) ∈ getAllConferences c := by
  unfold getConferenceInfo lookupKey at h
  split at h
  · next p hp =>
    refine ⟨p.1, ?_⟩
    have hmem := List.mem_of_find?_eq_some hp
    obtain ⟨rfl⟩ := Option.some.inj h
    simpa using hmem
  · exact absurd h (by simp)

/-! ## Claims -/

/-- C7: conference-info lookup is case-insensitive — a key and its
uppercased form return the identical result — and an unknown key yields an
absent result (`none`), never an error. -/
theorem c7_info_case_insensitive (c : Config) (k : String) :
    getConferenceInfo c k = getConferenceInfo c (strUpper k) ∧
    (lookupKey (getAllConferences c) (strLower k) = none → getConferenceInfo c k = none) := by
  constructor
  · unfold getConferenceInfo
    rw [strLowerUpper]
  · intro h
    exact h

/-- Witness for C7 at the modelled registry: the registered key `sp` and
an unknown key. -/
theorem c7_info_case_insensitive_witness :
    getConferenceInfo mcfg "doesnotexist" = none ∧
    getConferenceInfo mcfg "sp" = getConferenceInfo mcfg (strUpper "sp") :=
  ⟨(c7_info_case_insensitive mcfg "doesnotexist").2 (by decide),
   (c7_info_case_insensitive mcfg "sp").1⟩

/-- C8: `getAvailableYears` is exactly the contiguous ascending integer
range from 2020 through `currentYear + 1` inclusive; with current year
2025 it is 2020..2026. -/
theorem c8_available_years (currentYear : Int) :
    (∀ y : Int, y ∈ getAvailableYears currentYear ↔ 2020 ≤ y ∧ y ≤ currentYear + 1) ∧
    List.Pairwise (fun a b : Int => a < b) (getAvailableYears currentYear) ∧
    getAvailableYears 2025 = [2020, 2021, 2022, 2023, 2024, 2025, 2026] := by
  refine ⟨?_, ?_, by decide⟩
  · intro y
    unfold getAvailableYears
    simp only [List.mem_map, List.mem_range]
    constructor
    · rintro ⟨i, hi, rfl⟩
      omega
    · intro hy
      exact ⟨(y - 2020).toNat, by omega, by omega⟩
  · unfold getAvailableYears
    exact (List.pairwise_lt_range _).map _ (by intro a b hab; omega)

/-- C10: when `limit` is absent or an explicit 0, the upstream request is
issued with max-hit-count 50 (the default is selected by falsiness, so 0
behaves like omission). -/
theorem c10_limit_default (c : Config) (fetch : String × Int → List DblpHit)
    (options : SearchOptions) (h : options.limit = none ∨ options.limit = some 0) :
    searchPapersModel c fetch options =
      processHits c options (fetch (buildDblpQuery c options, 50)) := by
  unfold searchPapersModel
  rcases h with h | h <;> simp [dblpRequestLimit, h]

/-- Witness for C10: an explicit limit of 0 against a fetch function that
distinguishes the requested max-hit-count. -/
theorem c10_limit_default_witness :
    searchPapersModel mcfg
        (fun p => if p.2 = 50 then [{ title := "T", year := "2024", venue := "zzz" }] else [])
        { limit := some 0 } =
      processHits mcfg { limit := some 0 }
        ((fun p : String × Int =>
          if p.2 = 50 then [{ title := "T", year := "2024", venue := "zzz" }] else [])
          (buildDblpQuery mcfg { limit := some 0 }, 50)) :=
  c10_limit_default mcfg _ { limit := some 0 } (Or.inr rfl)

/-- C5: `searchByConference` fails with the unknown-conference error for an
unregistered key without consulting the upstream fetch at all (the result
is the same for any two fetch functions), and for a registered key
delegates to the search pipeline with `conferences = [key]`,
`yearFrom = yearTo = year` and limit 200. -/
theorem c5_search_by_conference (c : Config) (f g : String × Int → List DblpHit)
    (key : String) (year : Int) :
    (getConferenceInfo c key = none →
      searchByConference c f key year = .error ("Unknown conference: " ++ key) ∧
      searchByConference c f key year = searchByConference c g key year) ∧
    (∀ conf, getConferenceInfo c key = some conf →
      searchByConference c f key year =
        .ok (searchPapersModel c f
          { conferences := some [key], yearFrom := some year, yearTo := some year,
            limit := some 200 })) := by
  constructor
  · intro h
    constructor <;> simp [searchByConference, h]
  · intro conf h
    simp [searchByConference, h, byConferenceOptions]

/-- Witness for C5: the unknown key of spec Scenario C with two fetch
functions that disagree, and the registered key `sp`. -/
theorem c5_search_by_conference_witness :
    (searchByConference mcfg (fun _ => []) "doesnotexist" 2024 =
        .error ("Unknown conference: " ++ "doesnotexist") ∧
      searchByConference mcfg (fun _ => []) "doesnotexist" 2024 =
        searchByConference mcfg (fun _ => [{ title := "T", year := "2024", venue := "zzz" }])
          "doesnotexist" 2024) ∧
    searchByConference mcfg (fun _ => []) "sp" 2024 =
      .ok (searchPapersModel mcfg (fun _ => [])
        { conferences := some ["sp"], yearFrom := some 2024, yearTo := some 2024,
          limit := some 200 }) :=
  ⟨(c5_search_by_conference mcfg (fun _ => [])
      (fun _ => [{ title := "T", year := "2024", venue := "zzz" }]) "doesnotexist" 2024).1
      (by decide),
   (c5_search_by_conference mcfg (fun _ => []) (fun _ => []) "sp" 2024).2 spInfo (by decide)⟩

/-- C2 (amended): when both year bounds are supplied and non-zero, every
returned Paper whose year parsed to an integer lies within the inclusive
bounds.  (Hits with a non-numeric year pass the filter with a `NaN` year —
see the counterexample.) -/
theorem c2_year_bounds (c : Config) (options : SearchOptions) (hits : List DblpHit)
    (yf yt : Int) (hyf : options.yearFrom = some yf) (hyf0 : yf ≠ 0)
    (hyt : options.yearTo = some yt) (hyt0 : yt ≠ 0) :
    ∀ p ∈ processHits c options hits, ∀ y : Int, p.year = some y → yf ≤ y ∧ y ≤ yt := by
  intro p hp y hy
  unfold processHits at hp
  rw [List.mem_filterMap] at hp
  obtain ⟨hit, hmem, heq⟩ := hp
  by_cases hsk : yearSkip options hit
  · simp [hsk] at heq
  · simp only [hsk, Bool.false_eq_true, not_false_eq_true, if_neg, if_false] at heq
    by_cases hal : allowSkip options (matchConference c hit.venue)
    · simp [hal] at heq
    · simp only [hal, Bool.false_eq_true, not_false_eq_true, if_neg, if_false,
        Option.some.injEq] at heq
      have hpy : p.year = jsParseInt hit.year := by rw [← heq]; rfl
      have hparse : jsParseInt hit.year = some y := by rw [← hpy, hy]
      unfold yearSkip at hsk
      rw [hyf, hyt, hparse] at hsk
      simp only [truthyInt, Bool.or_eq_true, Bool.and_eq_true, bne_iff_ne, ne_eq,
        decide_eq_true_eq, not_or, not_and] at hsk
      obtain ⟨h1, h2⟩ := hsk
      have hn1 := h1 hyf0
      have hn2 := h2 hyt0
      omega

/-- Counterexample to C2 as stated: with bounds 2020..2024 supplied, a hit
whose year field is the non-numeric string `forthcoming` is not skipped —
its year parses to `NaN` (`none`), both bound comparisons are false, and a
Paper with a non-integer year is returned. -/
theorem c2_counterexample :
    processHits mcfg { yearFrom := some 2020, yearTo := some 2024 }
        [{ title := "T", year := "forthcoming", venue := "Workshop XYZ" }] =
      [{ title := "T", authors := [], year := none, conference := "Workshop XYZ",
         conferenceFull := "Workshop XYZ", tier := Tier.second, url := none, doi := none,
         conferenceUrl := none }] ∧
    ¬ ∀ p ∈ processHits mcfg { yearFrom := some 2020, yearTo := some 2024 }
        [{ title := "T", year := "forthcoming", venue := "Workshop XYZ" }],
      ∃ y : Int, p.year = some y ∧ 2020 ≤ y ∧ y ≤ 2024 := by
  refine ⟨by decide, fun h => ?_⟩
  obtain ⟨y, hy, -⟩ := h
    { title := "T", authors := [], year := none, conference := "Workshop XYZ",
      conferenceFull := "Workshop XYZ", tier := Tier.second, url := none, doi := none,
      conferenceUrl := none } (by decide)
  simp at hy

/-- Witness for the amended C2: a numeric-year hit inside the bounds. -/
theorem c2_year_bounds_witness :
    { title := "T", authors := [], year := some 2024, conference := "Workshop XYZ",
      conferenceFull := "Workshop XYZ", tier := Tier.second, url := none, doi := none,
      conferenceUrl := none } ∈
      processHits mcfg { yearFrom := some 2020, yearTo := some 2024 }
        [{ title := "T", year := "2024", venue := "Workshop XYZ" }] ∧
    ((2020 : Int) ≤ 2024 ∧ (2024 : Int) ≤ 2024) :=
  ⟨by decide,
   c2_year_bounds mcfg { yearFrom := some 2020, yearTo := some 2024 }
     [{ title := "T", year := "2024", venue := "Workshop XYZ" }] 2020 2024 rfl (by decide)
     rfl (by decide)
     { title := "T", authors := [], year := some 2024, conference := "Workshop XYZ",
       conferenceFull := "Workshop XYZ", tier := Tier.second, url := none, doi := none,
       conferenceUrl := none } (by decide) 2024 (by decide)⟩

/-- C3: with an explicit non-empty conference list, a hit whose venue
matches a registered conference whose key is not in the list is excluded,
while a hit with no match is never excluded by the allow-list check and
(passing the year filter) still produces a Paper. -/
theorem c3_allow_list (c : Config) (options : SearchOptions) (hit : DblpHit)
    (cs : List String) (hcs : options.conferences = some cs) (hne : cs ≠ []) :
    (∀ m, matchConference c hit.venue = some m → m.1 ∉ cs →
      processHits c options [hit] = []) ∧
    (matchConference c hit.venue = none → yearSkip options hit = false →
      processHits c options [hit] = [mkPaper c hit none (jsParseInt hit.year)]) := by
  constructor
  · intro m hm hnotin
    unfold processHits
    simp only [List.filterMap_cons, List.filterMap_nil]
    by_cases hy : yearSkip options hit
    · simp [hy]
    · have hskip : allowSkip options (matchConference c hit.venue) = true := by
        rw [hm]
        unfold allowSkip
        rw [hcs]
        simp only [Bool.and_eq_true, Bool.not_eq_true']
        constructor
        · simpa [List.isEmpty_iff] using hne
        · simpa [List.contains_iff_exists_mem_beq] using hnotin
      simp [hy, hskip]
  · intro hm hy
    unfold processHits
    simp only [List.filterMap_cons, List.filterMap_nil, hm]
    have hskip : allowSkip options none = false := by
      unfold allowSkip
      rw [hcs]
    simp [hy, hskip]

/-- Witness for C3 at the modelled registry: a CCS hit against the
allow-list `[ndss]` is dropped; an unmatched workshop hit survives. -/
theorem c3_allow_list_witness :
    processHits mcfg { conferences := some ["ndss"] }
        [{ title := "A", year := "2024", venue := "ACM CCS 2024" }] = [] ∧
    processHits mcfg { conferences := some ["ndss"] }
        [{ title := "B", year := "2024", venue := "Workshop XYZ" }] =
      [mkPaper mcfg { title := "B", year := "2024", venue := "Workshop XYZ" } none
        (jsParseInt "2024")] :=
  ⟨(c3_allow_list mcfg { conferences := some ["ndss"] }
      { title := "A", year := "2024", venue := "ACM CCS 2024" } ["ndss"] rfl (by decide)).1
      ("ccs", ccsInfo) (by decide) (by decide),
   (c3_allow_list mcfg { conferences := some ["ndss"] }
      { title := "B", year := "2024", venue := "Workshop XYZ" } ["ndss"] rfl (by decide)).2
      (by decide) (by decide)⟩

/-- The Paper the spec describes for one hit: conference display fields
and tier taken from the matched registry entry when a match exists, else
the raw venue string and default tier `second`. -/
def paperClaimC6 (c : Config) (hit : DblpHit) : Paper :=
  let matched := matchConference c hit.venue
  let year := jsParseInt hit.year
  { title := hit.title
    authors := extractAuthors hit
    year := year
    conference := match matched with | some m => m.2.shortName | none => hit.venue
    conferenceFull := match matched with | some m => m.2.name | none => hit.venue
    tier := match matched with | some m => m.2.tier | none => .second
    url := jsOrOpt hit.ee hit.url
    doi := hit.doi
    conferenceUrl := matched.bind (fun m => getConferenceWebsiteUrlN c m.1 year) }

/-- C6: a surviving hit produces exactly the spec's Paper — registry
fields when matched (given the registry's display names are non-empty,
since the source selects them by truthiness), raw venue string and tier
`second` when unmatched. -/
theorem c6_fallback_fields (c : Config) (options : SearchOptions) (hit : DblpHit)
    (hnames : ∀ p ∈ getAllConferences c, p.2.shortName ≠ "" ∧ p.2.name ≠ "")
    (hyear : yearSkip options hit = false) (hconfs : options.conferences = none) :
    processHits c options [hit] = [paperClaimC6 c hit] ∧
    (matchConference c hit.venue = none →
      (paperClaimC6 c hit).conference = hit.venue ∧
      (paperClaimC6 c hit).conferenceFull = hit.venue ∧
      (paperClaimC6 c hit).tier = .second) := by
  constructor
  · unfold processHits
    simp only [List.filterMap_cons, List.filterMap_nil, hyear, Bool.false_eq_true,
      not_false_eq_true, if_neg, if_false]
    have hal : allowSkip options (matchConference c hit.venue) = false := by
      unfold allowSkip
      rw [hconfs]
    rw [hal]
    simp only [Bool.false_eq_true, not_false_eq_true, if_neg, if_false]
    cases hm : matchConference c hit.venue with
    | none => simp [mkPaper, paperClaimC6, hm, jsOrStr]
    | some m =>
      obtain ⟨hsn, hn⟩ := hnames m (matchConference_mem hm)
      simp [mkPaper, paperClaimC6, hm, jsOrStr, hsn, hn]
  · intro hm
    simp [paperClaimC6, hm]

/-- Witness for C6: spec Scenario B, an unmatched workshop venue. -/
theorem c6_fallback_fields_witness :
    (processHits mcfg {}
        [{ title := "W", year := "2023", venue := "Proceedings of WORKSHOP-XYZ 2023" }] =
      [paperClaimC6 mcfg
        { title := "W", year := "2023", venue := "Proceedings of WORKSHOP-XYZ 2023" }]) ∧
    ((paperClaimC6 mcfg
        { title := "W", year := "2023", venue := "Proceedings of WORKSHOP-XYZ 2023" }).conference =
        "Proceedings of WORKSHOP-XYZ 2023" ∧
      (paperClaimC6 mcfg
        { title := "W", year := "2023", venue := "Proceedings of WORKSHOP-XYZ 2023" }).conferenceFull =
        "Proceedings of WORKSHOP-XYZ 2023" ∧
      (paperClaimC6 mcfg
        { title := "W", year := "2023", venue := "Proceedings of WORKSHOP-XYZ 2023" }).tier =
        .second) :=
  ⟨(c6_fallback_fields mcfg {}
      { title := "W", year := "2023", venue := "Proceedings of WORKSHOP-XYZ 2023" }
      (by decide) (by decide) rfl).1,
   (c6_fallback_fields mcfg {}
      { title := "W", year := "2023", venue := "Proceedings of WORKSHOP-XYZ 2023" }
      (by decide) (by decide) rfl).2 (by decide)⟩

/-- The effective conference set as the spec words it: the explicit list
when non-empty, else every key of the tier selection. -/
def effectiveConferences (c : Config) (options : SearchOptions) : List String :=
  match options.conferences with
  | some cs =>
    if cs = [] then (getConferencesByTier c (options.tier.getD .all)).map Prod.fst else cs
  | none => (getConferencesByTier c (options.tier.getD .all)).map Prod.fst

/-- The query as the spec words it: keyword if present, author clause if
present, then the effective conference set mapped through the registry to
upstream venue identifiers (unresolvable keys discarded) joined into one
disjunction of `venue:<id>:` terms, the clause omitted when no identifier
survives. -/
def buildDblpQuerySpec (c : Config) (options : SearchOptions) : String :=
  let ids := (effectiveConferences c options).filterMap
    (fun k => (getConferenceInfo c k).map (fun conf => conf.dblpKey))
  let venueClause :=
    match ids with
    | [] => []
    | vs => [String.intercalate "|" (vs.map (fun v => "venue:" ++ v ++ ":"))]
  String.intercalate " " (kwPart options ++ authorPart options ++ venueClause)

/-- C4: the built query equals the spec's description of it, given the
registry invariant that every entry has a non-empty upstream venue
identifier (the source additionally drops falsy identifiers, which that
invariant makes unreachable). -/
theorem c4_query_builder (c : Config) (options : SearchOptions)
    (hkeys : ∀ p ∈ getAllConferences c, p.2.dblpKey ≠ "") :
    buildDblpQuery c options = buildDblpQuerySpec c options := by
  have htc : effectiveConferences c options = targetConferences c options := by
    unfold effectiveConferences targetConferences
    cases options.conferences with
    | none => rfl
    | some cs => by_cases hc : cs = [] <;> simp [hc]
  have hq : venueQueries c options =
      (effectiveConferences c options).filterMap
        (fun k => (getConferenceInfo c k).map (fun conf => conf.dblpKey)) := by
    unfold venueQueries
    rw [htc]
    refine (List.filterMap_congr ?_).symm
    intro k hk
    cases h : getConferenceInfo c k with
    | none => rfl
    | some conf =>
      obtain ⟨k2, hmem⟩ := getConferenceInfo_mem h
      simp [hkeys _ hmem]
  unfold buildDblpQuery buildDblpQuerySpec venuePart
  rw [hq]

/-- Witness for C4 at the modelled registry: keyword, author and top-tier
default set. -/
theorem c4_query_builder_witness :
    buildDblpQuery mcfg
        { keyword := some "fuzzing", author := some "Jane Doe", tier := some .top } =
      buildDblpQuerySpec mcfg
        { keyword := some "fuzzing", author := some "Jane Doe", tier := some .top } :=
  c4_query_builder mcfg _ (by decide)

/-- C9: when the explicit conference list is non-empty but none of its
keys resolves, the query carries no venue clause, and every returned Paper
comes from an unmatched venue and carries the fallback fields.  The last
hypothesis is the registry invariant that each entry is found again under
its own key (keys stored lowercase and unique). -/
theorem c9_unresolvable_allow_list (c : Config) (options : SearchOptions) (hits : List DblpHit)
    (cs : List String) (hcs : options.conferences = some cs) (hne : cs ≠ [])
    (hunres : ∀ k ∈ cs, getConferenceInfo c k = none)
    (hself : ∀ p ∈ getAllConferences c, getConferenceInfo c p.1 = some p.2) :
    buildDblpQuery c options = String.intercalate " " (kwPart options ++ authorPart options) ∧
    ∀ paper ∈ processHits c options hits, ∃ hit ∈ hits,
      matchConference c hit.venue = none ∧
      paper = mkPaper c hit none (jsParseInt hit.year) ∧
      paper.tier = .second ∧ paper.conference = hit.venue ∧ paper.conferenceFull = hit.venue := by
  constructor
  · have hvq : venueQueries c options = [] := by
      unfold venueQueries targetConferences
      rw [hcs]
      simp only [hne, if_pos, ne_eq, not_false_eq_true, if_true]
      rw [List.filterMap_eq_nil_iff]
      intro k hk
      rw [hunres k hk]
    unfold buildDblpQuery venuePart
    rw [hvq]
    simp
  · intro paper hp
    unfold processHits at hp
    rw [List.mem_filterMap] at hp
    obtain ⟨hit, hmem, heq⟩ := hp
    by_cases hsk : yearSkip options hit
    · simp [hsk] at heq
    · simp only [hsk, Bool.false_eq_true, not_false_eq_true, if_neg, if_false] at heq
      cases hm : matchConference c hit.venue with
      | some m =>
        have hinfo := hself m (matchConference_mem hm)
        have hnotin : m.1 ∉ cs := by
          intro hin
          rw [hunres m.1 hin] at hinfo
          exact Option.noConfusion hinfo
        have hal : allowSkip options (matchConference c hit.venue) = true := by
          rw [hm]
          unfold allowSkip
          rw [hcs]
          simp only [Bool.and_eq_true, Bool.not_eq_true']
          exact ⟨by simpa [List.isEmpty_iff] using hne,
            by simpa [List.contains_iff_exists_mem_beq] using hnotin⟩
        rw [hal] at heq
        simp at heq
      | none =>
        have hal : allowSkip options (matchConference c hit.venue) = false := by
          rw [hm]
          unfold allowSkip
          rw [hcs]
        rw [hal] at heq
        simp only [Bool.false_eq_true, not_false_eq_true, if_neg, if_false,
          Option.some.injEq] at heq
        rw [hm] at heq
        refine ⟨hit, hmem, hm, heq.symm, ?_, ?_, ?_⟩ <;> rw [← heq] <;> rfl

/-- Witness for C9: an unresolvable allow-list `[foo]`, one CCS hit (which
is filtered out) and one unmatched workshop hit (which survives with
fallback fields). -/
theorem c9_unresolvable_allow_list_witness :
    buildDblpQuery mcfg { keyword := some "x", conferences := some ["foo"] } =
      String.intercalate " "
        (kwPart { keyword := some "x", conferences := some ["foo"] } ++
          authorPart { keyword := some "x", conferences := some ["foo"] }) ∧
    ∃ hit ∈ ([{ title := "A", year := "2024", venue := "ACM CCS 2024" },
              { title := "B", year := "2024", venue := "Workshop XYZ" }] : List DblpHit),
      matchConference mcfg hit.venue = none ∧
      mkPaper mcfg { title := "B", year := "2024", venue := "Workshop XYZ" } none
          (jsParseInt "2024") =
        mkPaper mcfg hit none (jsParseInt hit.year) ∧
      (mkPaper mcfg { title := "B", year := "2024", venue := "Workshop XYZ" } none
          (jsParseInt "2024")).tier = .second ∧
      (mkPaper mcfg { title := "B", year := "2024", venue := "Workshop XYZ" } none
          (jsParseInt "2024")).conference = hit.venue ∧
      (mkPaper mcfg { title := "B", year := "2024", venue := "Workshop XYZ" } none
          (jsParseInt "2024")).conferenceFull = hit.venue :=
  ⟨(c9_unresolvable_allow_list mcfg { keyword := some "x", conferences := some ["foo"] }
      [{ title := "A", year := "2024", venue := "ACM CCS 2024" },
       { title := "B", year := "2024", venue := "Workshop XYZ" }] ["foo"] rfl (by decide)
      (by decide) (by decide)).1,
   (c9_unresolvable_allow_list mcfg { keyword := some "x", conferences := some ["foo"] }
      [{ title := "A", year := "2024", venue := "ACM CCS 2024" },
       { title := "B", year := "2024", venue := "Workshop XYZ" }] ["foo"] rfl (by decide)
      (by decide) (by decide)).2
      (mkPaper mcfg { title := "B", year := "2024", venue := "Workshop XYZ" } none
        (jsParseInt "2024")) (by decide)⟩

/-- C1 (amended): the venue-identifier rule is checked first only within a
conference; across conferences, registry order wins.  A venue text
containing a conference's upstream identifier is matched to that
conference provided no earlier conference in registry order fires any of
its three rules. -/
theorem c1_priority (c : Config) (venue : String) (pre post : List (String × ConferenceInfo))
    (k : String) (conf : ConferenceInfo)
    (hsplit : getAllConferences c = pre ++ (k, conf) :: post)
    (hkey : strIncludes (strLower venue) conf.dblpKey = true)
    (hpre : ∀ p ∈ pre, confRuleHit (strLower venue) p = none) :
    matchConference c venue = some (k, conf) := by
  unfold matchConference
  rw [hsplit, List.findSome?_append]
  have h1 : pre.findSome? (confRuleHit (strLower venue)) = none :=
    List.findSome?_eq_none_iff.mpr hpre
  rw [h1, Option.none_or, List.findSome?_cons]
  have h2 : confRuleHit (strLower venue) (k, conf) = some (k, conf) := by
    unfold confRuleHit
    simp [hkey]
  rw [h2]

/-- Witness for the amended C1: a venue containing only the USENIX
Security upstream identifier `uss`; the earlier S&P entry fires no rule. -/
theorem c1_priority_witness :
    matchConference mcfg "USS 2024" = some ("usenix", usenixInfo) :=
  c1_priority mcfg "USS 2024" [("sp", spInfo)]
    [("ccs", ccsInfo), ("ndss", ndssInfo), ("acsac", acsacInfo), ("raid", raidInfo),
     ("esorics", esoricsInfo)]
    "usenix" usenixInfo (by decide) (by decide) (by decide)

/-- Counterexample to C1 as stated: the venue text contains the registered
CCS upstream identifier, yet the matcher returns USENIX Security — an
earlier conference matched only through its registry key (its own upstream
identifier `uss` does not occur) — so the upstream-identifier rule does
not have cross-conference priority. -/
theorem c1_counterexample :
    ("ccs", ccsInfo) ∈ getAllConferences mcfg ∧
    strIncludes (strLower "Proceedings colocated with USENIX and CCS") ccsInfo.dblpKey = true ∧
    matchConference mcfg "Proceedings colocated with USENIX and CCS" =
      some ("usenix", usenixInfo) ∧
    ("usenix", usenixInfo) ≠ (("ccs", ccsInfo) : String × ConferenceInfo) ∧
    strIncludes (strLower "Proceedings colocated with USENIX and CCS") usenixInfo.dblpKey =
      false :=
  ⟨by decide, by decide, by decide, by decide, by decide⟩

end SecPaper
